import Mathlib

/-!
Shallow embedding of the daily-60s-news plugin core (`src/main.py`):
the retrying downloader (`_download_news`), the on-demand read path
(`_get_image_news`), the sleep computation (`_calculate_sleep_time`),
the retention sweep (`_delete_expired_news_files`), the broadcaster
(`_send_daily_news_to_groups`) and the background loop body
(`_daily_task`).

Conventions: time is measured in microseconds (Python naive `datetime`
arithmetic on a drift-free clock); HTTP responses, JSON decoding and the
outbound send primitive are inputs to the model; exceptions are
`Except`/sum results; the observable behaviour of a call (GET requests
issued, sleeps performed, files written or removed, sends, logged
errors) is returned as an event list.
-/

namespace DailyNews

/-- A JSON value as far as the plugin inspects one: a number, a string
or `null` (other shapes never matter to the code paths modelled). -/
inductive JVal where
  | num (n : Int)
  | str (s : String)
  | null
deriving DecidableEq, Repr

/-- A decoded JSON object: an association list of fields. -/
abbrev Json := List (String × JVal)

/-- `data.get(k)`: the first binding of field `k`, if any. -/
def jget (j : Json) (k : String) : Option JVal :=
  (j.find? (fun p => p.1 = k)).map (fun p => p.2)

/-- Python truthiness test `if not image_url` on a `dict.get` result:
falsy when the field is absent, `null`, the empty string, or `0`. -/
def isFalsy : Option JVal → Bool
  | none => true
  | some .null => true
  | some (.str s) => s = ""
  | some (.num n) => n = 0

/-- `str(v)` as used when a JSON value is spliced into an f-string. -/
def jvalAsStr : JVal → String
  | .num n => toString n
  | .str s => s
  | .null => "None"

/-- One HTTP response: status code, raw body bytes (as a string), and
the result of `response.json()` (`.error` models the exception raised
on a malformed body, carrying the exception's message). -/
structure Resp where
  status : Nat
  body : String
  json : Except String Json
deriving Repr

/-- The network, for one attempt: maps a requested URL to a response;
`.error` models a connection/timeout exception with its message. -/
abbrev Net := String → Except String Resp

/-- The plugin configuration fields read by the modelled code paths
(`__init__` lines 43-55 of `src/main.py`). `api` is `self.api` (the
indirect-mode endpoint), `img_url` is `self.img_url` (direct mode),
`img_key`/`date_key` are the configured field-name strings stored in
`__init__`. -/
structure Config where
  news_type : String
  api : String
  img_url : String
  img_key : String
  date_key : String
deriving DecidableEq, Repr

/-- Observable events of a run. Sleep durations are in microseconds. -/
inductive Ev where
  | sleepUs (us : Nat)
  | fetch (url : String)
  | send (target : String)
  | remove (name : String)
  | logErr (msg : String)
deriving DecidableEq, Repr

/-- Outcome of one body of the retry loop in `_download_news`:
a `return path, True`, a raised-and-caught exception with its message,
or (for an unrecognised `news_type`) no branch taken at all. -/
inductive AttemptRes where
  | success (path : String)
  | failure (msg : String)
  | skipped
deriving DecidableEq, Repr

/-- One loop body's outcome plus its observable effects. -/
structure AttemptOut where
  res : AttemptRes
  evs : List Ev
  writes : List (String × String)
deriving Repr

/-- One iteration of the `for attempt in range(retries)` body of
`_download_news` (lines 198-250): branch on `news_type`, perform the
GET(s), write the file on success; any raised exception surfaces as
`.failure msg` (the `except` clause catches it). -/
def attemptOnce (cfg : Config) (net : Net) (date path : String) : AttemptOut :=
  if cfg.news_type = "vikiboss_api" then
    let url := "https://60s-api.viki.moe/v2/60s?date=" ++ date ++ "&encoding=image-proxy"
    match net url with
    | .error e => ⟨.failure e, [.fetch url], []⟩
    | .ok r =>
      if r.status = 200 then ⟨.success path, [.fetch url], [(path, r.body)]⟩
      else ⟨.failure ("API返回错误代码: " ++ toString r.status), [.fetch url], []⟩
  else if cfg.news_type = "indirect" then
    let url := cfg.api
    match net url with
    | .error e => ⟨.failure e, [.fetch url], []⟩
    | .ok r =>
      if r.status = 200 then
        match r.json with
        | .error e => ⟨.failure e, [.fetch url], []⟩
        | .ok data =>
          if jget data "code" = some (.num 200) then
            let image_url := jget data "imageUrl"
            if isFalsy image_url then
              ⟨.failure "响应中未找到imageUrl字段", [.fetch url], []⟩
            else
              match image_url with
              | some (.str iu) =>
                match net iu with
                | .error e => ⟨.failure e, [.fetch url, .fetch iu], []⟩
                | .ok ir =>
                  if ir.status = 200 then
                    ⟨.success path, [.fetch url, .fetch iu], [(path, ir.body)]⟩
                  else
                    ⟨.failure ("图片下载失败: HTTP " ++ toString ir.status),
                      [.fetch url, .fetch iu], []⟩
              -- a truthy non-string URL makes `session.get` raise
              | _ => ⟨.failure "无效的图片URL", [.fetch url], []⟩
          else
            ⟨.failure ("API返回错误: " ++
                (match jget data "msg" with
                 | some v => jvalAsStr v
                 | none => "未知错误")), [.fetch url], []⟩
      else ⟨.failure ("API请求失败: HTTP " ++ toString r.status), [.fetch url], []⟩
  else if cfg.news_type = "direct" then
    let url := cfg.img_url
    match net url with
    | .error e => ⟨.failure e, [.fetch url], []⟩
    | .ok r =>
      if r.status = 200 then ⟨.success path, [.fetch url], [(path, r.body)]⟩
      else ⟨.failure ("API返回错误代码: " ++ toString r.status), [.fetch url], []⟩
  else ⟨.skipped, [], []⟩

/-- Result of a whole `_download_news` call: the returned value
(`none` models the fall-through `return None`), the events, the file
writes, and the number of loop iterations executed. -/
structure DLOut where
  result : Option (String × Bool)
  evs : List Ev
  writes : List (String × String)
  iters : Nat
deriving Repr

/-- The retry loop of `_download_news` (lines 197-260), recursing on
the number of remaining iterations `r` with current index `a`
(`a + r = retries = 3` throughout); the Python guard
`attempt == retries - 1` is `r = 1`. On a failure that is not the
last attempt the code sleeps 1 second and retries. -/
def dlGo (cfg : Config) (net : Nat → Net) (date path : String) :
    Nat → Nat → DLOut
  | _, 0 => ⟨none, [], [], 0⟩
  | a, r + 1 =>
    let o := attemptOnce cfg (net a) date path
    match o.res with
    | .success p => ⟨some (p, true), o.evs, o.writes, 1⟩
    | .failure e =>
      if r = 0 then
        ⟨some ("接口报错，请联系管理员:" ++ e, false), o.evs, o.writes, 1⟩
      else
        let rest := dlGo cfg net date path (a + 1) r
        ⟨rest.result, o.evs ++ [.sleepUs 1000000] ++ rest.evs,
          o.writes ++ rest.writes, 1 + rest.iters⟩
    | .skipped =>
      let rest := dlGo cfg net date path (a + 1) r
      ⟨rest.result, o.evs ++ rest.evs, o.writes ++ rest.writes, 1 + rest.iters⟩

/-- `_download_news(path)` with `retries = 3`: `net i` is the network
as seen by attempt `i`. -/
def download_news (cfg : Config) (net : Nat → Net) (date path : String) : DLOut :=
  dlGo cfg net date path 0 3

/-- The three recognised values of `news_type`. -/
def validType (cfg : Config) : Prop :=
  cfg.news_type = "vikiboss_api" ∨ cfg.news_type = "indirect" ∨ cfg.news_type = "direct"

instance (cfg : Config) : Decidable (validType cfg) := by
  unfold validType; infer_instance

/-- `_get_image_news` (lines 176-185): if today's file exists return
`(path, True)` at once, else return `_download_news`'s value. -/
structure GIOut where
  result : Option (String × Bool)
  evs : List Ev
  writes : List (String × String)
deriving Repr

def get_image_news (cfg : Config) (net : Nat → Net) (fileExists : Bool)
    (date path : String) : GIOut :=
  if fileExists then ⟨some (path, true), [], []⟩
  else
    let d := download_news cfg net date path
    ⟨d.result, d.evs, d.writes⟩

/-- Python tuple unpacking `news_path, _ = x` applied to a value that
may be `None`: unpacking `None` raises a `TypeError`. -/
def tupleUnpack : Option (String × Bool) → Except String (String × Bool)
  | some p => .ok p
  | none => .error "TypeError: cannot unpack non-iterable NoneType object"

/-! ## Scheduler sleep computation (`_calculate_sleep_time`, lines 284-294) -/

/-- Microseconds per day. -/
def USPERDAY : Nat := 86400000000

/-- `_calculate_sleep_time`: `now` is the current naive local time in
microseconds; `now.replace(hour=hour, minute=minute, second=0,
microsecond=0)` keeps the date (the start of `now`'s day) and sets
the time of day; if that instant is `<= now` a day is added; the
returned duration is `next_push - now` (here in microseconds;
`total_seconds()` is the same duration expressed in seconds). -/
def calculate_sleep_time (now hour minute : Nat) : Nat :=
  let next_push := now / USPERDAY * USPERDAY + (hour * 3600 + minute * 60) * 1000000
  if next_push ≤ now then next_push + USPERDAY - now else next_push - now

/-! ## Filename date parsing and the retention sweep
(`_delete_expired_news_files`, lines 296-310)

`datetime.datetime.strptime(filename[:8], "%Y%m%d")` matches the
CPython `_strptime` regex `(?P<Y>\d\d\d\d)(?P<m>1[0-2]|0[1-9]|[1-9])
(?P<d>3[01]|[12]\d|0[1-9]|[1-9])` against the string with `re.match`
(alternatives tried in order, with regex backtracking), then raises
unless the match consumed the whole string, then validates the day
against the month length via the `datetime` constructor. -/

/-- The numeric value of a decimal digit character, if it is one. -/
def digit? (c : Char) : Option Nat :=
  if c.isDigit then some (c.toNat - 48) else none

/-- Is `c` a digit in the inclusive range `lo`..`hi`? -/
def digBetween (c : Char) (lo hi : Nat) : Bool :=
  match digit? c with
  | some d => lo ≤ d && d ≤ hi
  | none => false

/-- The month alternatives `1[0-2] | 0[1-9] | [1-9]`, in regex order:
each alternative that matches a prefix, with the remaining input. -/
def mAlts : List Char → List (Nat × List Char)
  | c1 :: c2 :: rest =>
    (if c1 = '1' && digBetween c2 0 2 then
        [(10 + (c2.toNat - 48), rest)] else []) ++
    (if c1 = '0' && digBetween c2 1 9 then
        [(c2.toNat - 48, rest)] else []) ++
    (if digBetween c1 1 9 then [(c1.toNat - 48, c2 :: rest)] else [])
  | [c1] => if digBetween c1 1 9 then [(c1.toNat - 48, [])] else []
  | [] => []

/-- The day alternatives `3[01] | [12]\d | 0[1-9] | [1-9]`, in regex
order. -/
def dAlts : List Char → List (Nat × List Char)
  | c1 :: c2 :: rest =>
    (if c1 = '3' && digBetween c2 0 1 then
        [(30 + (c2.toNat - 48), rest)] else []) ++
    (if digBetween c1 1 2 && digBetween c2 0 9 then
        [((c1.toNat - 48) * 10 + (c2.toNat - 48), rest)] else []) ++
    (if c1 = '0' && digBetween c2 1 9 then
        [(c2.toNat - 48, rest)] else []) ++
    (if digBetween c1 1 9 then [(c1.toNat - 48, c2 :: rest)] else [])
  | [c1] => if digBetween c1 1 9 then [(c1.toNat - 48, [])] else []
  | [] => []

/-- Regex matching of `%m%d`: try month alternatives in order; for the
first month alternative whose remainder admits a day alternative, take
the first such day alternative (the regex engine backtracks over the
month only when no day alternative matches, and commits as soon as one
does, even if input remains). -/
def matchMD (cs : List Char) : Option (Nat × Nat × List Char) :=
  (mAlts cs).findSome? fun mr =>
    match dAlts mr.2 with
    | [] => none
    | dr :: _ => some (mr.1, dr.1, dr.2)

/-- Gregorian leap year (as in `datetime`). -/
def isLeap (y : Nat) : Bool :=
  y % 4 = 0 && (y % 100 ≠ 0 || y % 400 = 0)

/-- Days in month `m` of year `y` (months 1-12). -/
def daysInMonth (y m : Nat) : Nat :=
  if m = 2 then (if isLeap y then 29 else 28)
  else if m = 4 || m = 6 || m = 9 || m = 11 then 30
  else 31

/-- `strptime(s, "%Y%m%d").date()`: four digits of year, regex match
of month and day, full-consumption check, then date validation
(`datetime.MINYEAR = 1`; day within the month). -/
def strptimeYmd (s : String) : Option (Nat × Nat × Nat) :=
  match s.toList with
  | c1 :: c2 :: c3 :: c4 :: rest =>
    match digit? c1, digit? c2, digit? c3, digit? c4 with
    | some a, some b, some c, some d =>
      let y := a * 1000 + b * 100 + c * 10 + d
      match matchMD rest with
      | some (m, dd, []) =>
        if 1 ≤ y && dd ≤ daysInMonth y m then some (y, m, dd) else none
      | _ => none
    | _, _, _, _ => none
  | _ => none

/-- `date.toordinal()`: days from 0001-01-01 (= ordinal 1), proleptic
Gregorian, as computed by CPython's `_ymd2ord`. -/
def daysBeforeMonth (y m : Nat) : Nat :=
  (List.range m).foldl (fun acc i => if i = 0 then acc else acc + daysInMonth y i) 0

def toOrdinal (y m d : Nat) : Nat :=
  (y - 1) * 365 + (y - 1) / 4 - (y - 1) / 100 + (y - 1) / 400 +
    daysBeforeMonth y m + d

/-- A file in the cache directory: its name, and whether `os.remove`
on it would raise (a filesystem error, an input of the model). -/
structure FileEnt where
  name : String
  removeFails : Bool
deriving DecidableEq, Repr

/-- The per-file body of the sweep loop, as a keep-test: a file
survives the sweep iff its name's date does not parse (the exception
is caught and the loop continues), or its age is below `save_days`,
or the `os.remove` call raises (also caught). `todayOrd` is
`datetime.date.today().toordinal()`. -/
def fileKept (todayOrd saveDays : Int) (f : FileEnt) : Bool :=
  match strptimeYmd (f.name.take 8) with
  | none => true
  | some (y, m, d) =>
    if saveDays ≤ todayOrd - (toOrdinal y m d : Int) then f.removeFails else true

/-- `_delete_expired_news_files`: raises `ValueError` when
`save_days <= 0` (before touching any file), else sweeps the listed
files; the value is the list of files remaining afterwards. -/
def delete_expired (saveDays todayOrd : Int) (files : List FileEnt) :
    Except String (List FileEnt) :=
  if saveDays ≤ 0 then .error "保存天数不能小于0"
  else .ok (files.filter (fileKept todayOrd saveDays))

/-- The directory contents after invoking the sweep: unchanged when it
raised (the exception precedes the loop). -/
def pruneRun (saveDays todayOrd : Int) (files : List FileEnt) : List FileEnt :=
  match delete_expired saveDays todayOrd files with
  | .ok l => l
  | .error _ => files

/-! ## Broadcaster (`_send_daily_news_to_groups`, lines 262-282) -/

/-- One iteration of the broadcast loop for target `t`:
`news_path, _ = await self._get_image_news()` (the unpack raises a
`TypeError` when the value is `None`), then the send (which may raise
with message `e`; an empty message is replaced by `"未知错误"`); any
exception is caught and logged; both paths end with `sleep(2)`.
`sendFails t = some e` models `context.send_message` raising. -/
def sendTarget (cfg : Config) (net : Nat → Net) (fileExists : Bool)
    (date path : String) (sendFails : String → Option String) (t : String) :
    List Ev :=
  let g := get_image_news cfg net fileExists date path
  match tupleUnpack g.result with
  | .error e =>
    g.evs ++ [.logErr ("推送新闻失败: " ++ (if e = "" then "未知错误" else e)),
      .sleepUs 2000000]
  | .ok _ =>
    match sendFails t with
    | some e =>
      g.evs ++ [.send t,
        .logErr ("推送新闻失败: " ++ (if e = "" then "未知错误" else e)),
        .sleepUs 2000000]
    | none => g.evs ++ [.send t, .sleepUs 2000000]

/-- `_send_daily_news_to_groups`: the loop over `self.config.groups`
in configured order. -/
def send_daily_news_to_groups (cfg : Config) (net : Nat → Net)
    (fileExists : Bool) (date path : String)
    (sendFails : String → Option String) (groups : List String) : List Ev :=
  groups.flatMap (sendTarget cfg net fileExists date path sendFails)

/-! ## Background loop body (`_daily_task`, lines 312-328) -/

/-- The external inputs of one iteration of the `while True` loop. -/
structure DailyEnv where
  cfg : Config
  net : Nat → Net
  now : Nat
  hour : Nat
  minute : Nat
  date : String
  path : String
  fileExists : Bool
  files : List FileEnt
  todayOrd : Int
  saveDays : Int
  groups : List String
  sendFails : String → Option String
  /-- `True` when the task is cancelled while awaiting the main sleep
  (`asyncio.CancelledError` is not an `Exception`, so the `except`
  clause does not catch it and the loop ends). -/
  cancelled : Bool

/-- One iteration of `_daily_task`'s `while True` body: compute the
sleep, await it (cancellation stops the loop here), then
`_update_news_files` (an unconditional `_download_news`, its value
discarded), then the sweep, then the broadcast, then `sleep(60)`;
any `Exception` in the body is caught, logged, and followed by
`sleep(300)`. Returns the iteration's trace and whether the loop
continues. -/
def daily_step (env : DailyEnv) : List Ev × Bool :=
  let st := calculate_sleep_time env.now env.hour env.minute
  if env.cancelled then ([.sleepUs st], false)
  else
    let upd := download_news env.cfg env.net env.date env.path
    match delete_expired env.saveDays env.todayOrd env.files with
    | .error e =>
      ([.sleepUs st] ++ upd.evs ++ [.logErr e, .sleepUs 300000000], true)
    | .ok _ =>
      let removes := (env.files.filter
          (fun f => ! fileKept env.todayOrd env.saveDays f)).map
          (fun f => Ev.remove f.name)
      ([.sleepUs st] ++ upd.evs ++ removes ++
        send_daily_news_to_groups env.cfg env.net env.fileExists env.date
          env.path env.sendFails env.groups ++ [.sleepUs 60000000], true)

/-! ## Observation helpers and concrete fixtures -/

/-- A retry-backoff sleep event (`asyncio.sleep(1)` in the download loop). -/
def isRetrySleep : Ev → Bool
  | .sleepUs n => n == 1000000
  | _ => false

/-- A broadcast pacing sleep event (`asyncio.sleep(2)`). -/
def isPaceSleep : Ev → Bool
  | .sleepUs n => n == 2000000
  | _ => false

/-- An HTTP GET event. -/
def isFetch : Ev → Bool
  | .fetch _ => true
  | _ => false

/-- Number of retry-backoff sleeps in a trace. -/
def sleepCount (evs : List Ev) : Nat := List.countP isRetrySleep evs

/-- Number of pacing sleeps in a trace. -/
def paceCount (evs : List Ev) : Nat := List.countP isPaceSleep evs

/-- Number of network GETs in a trace. -/
def fetchCount (evs : List Ev) : Nat := List.countP isFetch evs

/-- The loop body of `_download_news` raised (and the `except` clause
caught the exception). -/
def isFailureRes (r : AttemptRes) : Prop := ∃ e, r = .failure e

/-- The loop body of `_download_news` returned `(path, True)`. -/
def isSuccessRes (r : AttemptRes) : Prop := ∃ p, r = .success p

/-- An indirect-mode configuration whose configured image-URL field
name is `"picture"` (and date field name `"ts"`). -/
def cfgPicture : Config :=
  ⟨"indirect", "http://a", "", "picture", "ts"⟩

/-- A network whose endpoint response carries the image URL under the
field `"picture"` (the configured field name) and nothing under
`"imageUrl"`. -/
def netPicture : Net := fun u =>
  if u = "http://a" then
    .ok ⟨200, "", .ok [("code", .num 200), ("picture", .str "http://x/y.jpg")]⟩
  else if u = "http://x/y.jpg" then .ok ⟨200, "IMGBYTES", .ok []⟩
  else .error "no route"

/-- A network whose endpoint response carries the image URL under the
literal field `"imageUrl"` only. -/
def netImageUrl : Net := fun u =>
  if u = "http://a" then
    .ok ⟨200, "", .ok [("code", .num 200), ("imageUrl", .str "http://x/y.jpg")]⟩
  else if u = "http://x/y.jpg" then .ok ⟨200, "IMGBYTES", .ok []⟩
  else .error "no route"

/-- An indirect-mode configuration with the default field names. -/
def cfgImageUrl : Config := ⟨"indirect", "http://a", "", "imageUrl", "date"⟩

/-- A network whose endpoint response is `{code: 500, msg: "bad"}`. -/
def netCode500 : Net := fun u =>
  if u = "http://a" then
    .ok ⟨200, "", .ok [("code", .num 500), ("msg", .str "bad")]⟩
  else .error "no route"

/-- A configuration with an unrecognised `news_type`. -/
def cfgText : Config := ⟨"text", "http://a", "http://b", "imageUrl", "date"⟩

/-- A network that always raises. -/
def netDown : Net := fun _ => .error "boom"

/-- A direct-mode configuration. -/
def cfgDirect : Config := ⟨"direct", "", "http://img", "imageUrl", "date"⟩

/-- A network that always answers 200 with body `"B"`. -/
def netOk : Net := fun _ => .ok ⟨200, "B", .ok []⟩

/-- A per-attempt network: the first attempt hits the dead network,
later attempts the healthy one. -/
def net01 : Nat → Net := fun i => if i = 0 then netDown else netOk

/-- A concrete loop environment: direct mode, dead network, push time
08:00, now 08:00:01 on day 0, an empty cache, 7-day retention on
ordinal day 739536 (2025-10-12), one target, no failures, not
cancelled. -/
def envW : DailyEnv :=
  { cfg := cfgDirect
    net := fun _ => netDown
    now := 28801000000
    hour := 8
    minute := 0
    date := "2025-10-12"
    path := "/tmp/p"
    fileExists := false
    files := []
    todayOrd := 739536
    saveDays := 7
    groups := ["g1"]
    sendFails := fun _ => none
    cancelled := false }

/-! ## Basic lemmas about one download attempt -/

lemma attemptOnce_unknown (cfg : Config) (net : Net) (date path : String)
    (h : ¬ validType cfg) : attemptOnce cfg net date path = ⟨.skipped, [], []⟩ := by
  unfold validType at h
  push_neg at h
  unfold attemptOnce
  rw [if_neg h.1, if_neg h.2.1, if_neg h.2.2]

lemma attemptOnce_known (cfg : Config) (net : Net) (date path : String)
    (h : validType cfg) : (attemptOnce cfg net date path).res ≠ .skipped := by
  intro hc
  unfold attemptOnce at hc
  rcases h with h | h | h <;> rw [h] at hc <;> dsimp only at hc <;>
    (repeat' split at hc)
  all_goals try simp_all

lemma attemptOnce_success_path (cfg : Config) (net : Net) (date path : String)
    (p : String) (h : (attemptOnce cfg net date path).res = .success p) : p = path := by
  unfold attemptOnce at h
  dsimp only at h
  repeat' split at h
  all_goals try simp_all

lemma attemptOnce_evs_fetch (cfg : Config) (net : Net) (date path : String) :
    ∀ e ∈ (attemptOnce cfg net date path).evs, isFetch e = true := by
  intro e he
  unfold attemptOnce at he
  dsimp only at he
  repeat' split at he
  all_goals try simp_all [isFetch]
  all_goals rcases he with rfl | rfl <;> rfl

lemma sleepCount_attemptOnce (cfg : Config) (net : Net) (date path : String) :
    sleepCount (attemptOnce cfg net date path).evs = 0 := by
  rw [sleepCount, List.countP_eq_zero]
  intro e he
  have := attemptOnce_evs_fetch cfg net date path e he
  cases e <;> simp_all [isFetch, isRetrySleep]

lemma paceCount_attemptOnce (cfg : Config) (net : Net) (date path : String) :
    paceCount (attemptOnce cfg net date path).evs = 0 := by
  rw [paceCount, List.countP_eq_zero]
  intro e he
  have := attemptOnce_evs_fetch cfg net date path e he
  cases e <;> simp_all [isFetch, isPaceSleep]

lemma calculate_sleep_time_eq (now hour minute : Nat) :
    calculate_sleep_time now hour minute =
      if now / USPERDAY * USPERDAY + (hour * 3600 + minute * 60) * 1000000 ≤ now
      then now / USPERDAY * USPERDAY + (hour * 3600 + minute * 60) * 1000000
            + USPERDAY - now
      else now / USPERDAY * USPERDAY + (hour * 3600 + minute * 60) * 1000000 - now :=
  rfl

/-- C1: for a valid push time `(hour, minute)` and any current time
`now`, `_calculate_sleep_time` returns a strictly positive duration;
`now + duration` is today's `(hour, minute, 0, 0)` when that instant
is strictly in the future, and otherwise tomorrow's; in either case
the wake instant's time of day is exactly `(hour, minute, 0, 0)`. -/
theorem C1_sleep_time (now hour minute : Nat) (hh : hour < 24) (hm : minute < 60) :
    0 < calculate_sleep_time now hour minute
    ∧ (now < now / USPERDAY * USPERDAY + (hour * 3600 + minute * 60) * 1000000 →
        now + calculate_sleep_time now hour minute
          = now / USPERDAY * USPERDAY + (hour * 3600 + minute * 60) * 1000000)
    ∧ (now / USPERDAY * USPERDAY + (hour * 3600 + minute * 60) * 1000000 ≤ now →
        now + calculate_sleep_time now hour minute
          = now / USPERDAY * USPERDAY + (hour * 3600 + minute * 60) * 1000000
            + USPERDAY)
    ∧ (now + calculate_sleep_time now hour minute) % USPERDAY
        = (hour * 3600 + minute * 60) * 1000000 := by
  rw [calculate_sleep_time_eq]
  unfold USPERDAY
  split <;> omega

/-- C1 witness: push time 08:00, now 08:00:01 on day 0 — the wake is
tomorrow 08:00:00 (microsecond 115200000000), one day minus one
second ahead, not today. -/
theorem C1_sleep_time_witness :
    8 < 24 ∧ 0 < 60 ∧
    0 < calculate_sleep_time 28801000000 8 0
    ∧ 28801000000 + calculate_sleep_time 28801000000 8 0 = 115200000000 := by
  have h := C1_sleep_time 28801000000 8 0 (by decide) (by decide)
  refine ⟨by decide, by decide, h.1, ?_⟩
  have h3 := h.2.2.1 (by decide)
  simpa using h3

lemma fileKept_parse_none (todayOrd saveDays : Int) (f : FileEnt)
    (h : strptimeYmd (f.name.take 8) = none) :
    fileKept todayOrd saveDays f = true := by
  unfold fileKept
  rw [h]

lemma fileKept_parse_some (todayOrd saveDays : Int) (f : FileEnt)
    (y m d : Nat) (h : strptimeYmd (f.name.take 8) = some (y, m, d)) :
    fileKept todayOrd saveDays f =
      if saveDays ≤ todayOrd - (toOrdinal y m d : Int) then f.removeFails
      else true := by
  unfold fileKept
  rw [h]

/-- C2: with a positive retention, the sweep succeeds and a file
survives iff it is kept by the per-file rule; a file whose first eight
characters do not parse as a date always survives; a file whose
deletion raises survives but later files are still processed (the
sweep of a concatenation is the concatenation of the sweeps); and a
file whose deletion does not raise is deleted iff its parsed date is
at least `saveDays` whole days before today. -/
theorem C2_prune (files : List FileEnt) (todayOrd saveDays : Int)
    (hs : 0 < saveDays) :
    ∃ l, delete_expired saveDays todayOrd files = .ok l
      ∧ (∀ f, f ∈ l ↔ f ∈ files ∧ fileKept todayOrd saveDays f = true)
      ∧ (∀ f ∈ files, strptimeYmd (f.name.take 8) = none → f ∈ l)
      ∧ (∀ f ∈ files, f.removeFails = true → f ∈ l)
      ∧ (∀ f : FileEnt, f.removeFails = false →
          (fileKept todayOrd saveDays f = false ↔
            ∃ y m d, strptimeYmd (f.name.take 8) = some (y, m, d) ∧
              saveDays ≤ todayOrd - (toOrdinal y m d : Int)))
      ∧ (∀ xs ys : List FileEnt, ∃ lx ly,
          delete_expired saveDays todayOrd xs = .ok lx ∧
          delete_expired saveDays todayOrd ys = .ok ly ∧
          delete_expired saveDays todayOrd (xs ++ ys) = .ok (lx ++ ly)) := by
  have hns : ¬ (saveDays ≤ 0) := by omega
  have hde : ∀ gs : List FileEnt, delete_expired saveDays todayOrd gs
      = .ok (gs.filter (fileKept todayOrd saveDays)) := by
    intro gs
    unfold delete_expired
    rw [if_neg hns]
  refine ⟨files.filter (fileKept todayOrd saveDays), hde files, ?_, ?_, ?_, ?_, ?_⟩
  · intro f; simp [List.mem_filter]
  · intro f hf hp
    rw [List.mem_filter]
    exact ⟨hf, fileKept_parse_none todayOrd saveDays f hp⟩
  · intro f hf hr
    rw [List.mem_filter]
    refine ⟨hf, ?_⟩
    rcases hp : strptimeYmd (f.name.take 8) with _ | ⟨y, m, d⟩
    · exact fileKept_parse_none todayOrd saveDays f hp
    · rw [fileKept_parse_some todayOrd saveDays f y m d hp, hr]
      split <;> rfl
  · intro f hf
    rcases hp : strptimeYmd (f.name.take 8) with _ | ⟨y, m, d⟩
    · rw [fileKept_parse_none todayOrd saveDays f hp]
      constructor
      · intro hc; exact absurd hc (by simp)
      · rintro ⟨y2, m2, d2, heq, -⟩
        exact absurd heq (by simp)
    · rw [fileKept_parse_some todayOrd saveDays f y m d hp, hf]
      split
      · constructor
        · intro _
          exact ⟨y, m, d, rfl, by assumption⟩
        · intro _; rfl
      · constructor
        · intro hc; exact absurd hc (by simp)
        · rintro ⟨y2, m2, d2, heq, hle⟩
          simp only [Option.some.injEq, Prod.mk.injEq] at heq
          obtain ⟨rfl, rfl, rfl⟩ := heq
          omega
  · intro xs ys
    exact ⟨_, _, hde xs, hde ys, by rw [hde (xs ++ ys), List.filter_append]⟩

/-- C2 witness: `saveDays = 7`, today is ordinal 739536 (2025-10-12),
files dated 2025-10-04 (8 days old) and 2025-10-09 (3 days old):
the sweep succeeds, only the 8-day-old file is deleted. -/
theorem C2_prune_witness :
    (0 : Int) < 7
    ∧ delete_expired 7 739536
        [⟨"20251004.jpeg", false⟩, ⟨"20251009.jpeg", false⟩]
        = .ok [⟨"20251009.jpeg", false⟩]
    ∧ (⟨"20251009.jpeg", false⟩ : FileEnt) ∈ [(⟨"20251009.jpeg", false⟩ : FileEnt)] := by
  obtain ⟨l, h1, h2, -, -, -, -⟩ :=
    C2_prune [⟨"20251004.jpeg", false⟩, ⟨"20251009.jpeg", false⟩] 739536 7
      (by decide)
  refine ⟨by decide, ?_, by decide⟩
  have hl : l = [⟨"20251009.jpeg", false⟩] := by
    have := h1
    rw [show delete_expired 7 739536
        [⟨"20251004.jpeg", false⟩, ⟨"20251009.jpeg", false⟩]
        = .ok [(⟨"20251009.jpeg", false⟩ : FileEnt)] from rfl] at this
    exact (Except.ok.injEq _ _).mp this.symm
  rw [h1, hl]

lemma dlGo_succ (cfg : Config) (net : Nat → Net) (date path : String)
    (a r : Nat) (p : String)
    (h : (attemptOnce cfg (net a) date path).res = .success p) :
    dlGo cfg net date path a (r + 1) =
      ⟨some (p, true), (attemptOnce cfg (net a) date path).evs,
        (attemptOnce cfg (net a) date path).writes, 1⟩ := by
  unfold dlGo
  dsimp only
  rw [h]

lemma dlGo_fail_last (cfg : Config) (net : Nat → Net) (date path : String)
    (a : Nat) (e : String)
    (h : (attemptOnce cfg (net a) date path).res = .failure e) :
    dlGo cfg net date path a 1 =
      ⟨some ("接口报错，请联系管理员:" ++ e, false),
        (attemptOnce cfg (net a) date path).evs,
        (attemptOnce cfg (net a) date path).writes, 1⟩ := by
  unfold dlGo
  dsimp only
  rw [h]
  rfl

lemma dlGo_fail_step (cfg : Config) (net : Nat → Net) (date path : String)
    (a r : Nat) (e : String) (hr : r ≠ 0)
    (h : (attemptOnce cfg (net a) date path).res = .failure e) :
    dlGo cfg net date path a (r + 1) =
      ⟨(dlGo cfg net date path (a + 1) r).result,
        (attemptOnce cfg (net a) date path).evs ++ [.sleepUs 1000000]
          ++ (dlGo cfg net date path (a + 1) r).evs,
        (attemptOnce cfg (net a) date path).writes
          ++ (dlGo cfg net date path (a + 1) r).writes,
        1 + (dlGo cfg net date path (a + 1) r).iters⟩ := by
  conv_lhs => rw [dlGo]
  dsimp only
  rw [h]
  dsimp only
  rw [if_neg hr]

lemma dlGo_skip (cfg : Config) (net : Nat → Net) (date path : String)
    (a r : Nat)
    (h : (attemptOnce cfg (net a) date path).res = .skipped) :
    dlGo cfg net date path a (r + 1) =
      ⟨(dlGo cfg net date path (a + 1) r).result,
        (attemptOnce cfg (net a) date path).evs
          ++ (dlGo cfg net date path (a + 1) r).evs,
        (attemptOnce cfg (net a) date path).writes
          ++ (dlGo cfg net date path (a + 1) r).writes,
        1 + (dlGo cfg net date path (a + 1) r).iters⟩ := by
  conv_lhs => rw [dlGo]
  dsimp only
  rw [h]

/-- C3: with a recognised `news_type`, the retry loop performs exactly
`min(N_failures + 1, 3)` loop iterations when the first `N_failures`
attempts raise, sleeps one second between failed attempts (`N` sleeps
before the successful attempt, two when all fail), returns
`(path, True)` on the first successful attempt with no further retry,
and returns the degraded `(error-string, False)` pair — not an
exception — iff all three attempts raise. -/
theorem C3_download_retry (cfg : Config) (net : Nat → Net) (date path : String)
    (hv : validType cfg) :
    (∀ N : Nat, N < 3 →
      (∀ i, i < N → isFailureRes (attemptOnce cfg (net i) date path).res) →
      isSuccessRes (attemptOnce cfg (net N) date path).res →
      (download_news cfg net date path).result = some (path, true)
        ∧ (download_news cfg net date path).iters = N + 1
        ∧ sleepCount (download_news cfg net date path).evs = N)
    ∧ ((∀ i, i < 3 → isFailureRes (attemptOnce cfg (net i) date path).res) →
      (∃ e, (attemptOnce cfg (net 2) date path).res = .failure e
          ∧ (download_news cfg net date path).result
              = some ("接口报错，请联系管理员:" ++ e, false))
        ∧ (download_news cfg net date path).iters = 3
        ∧ sleepCount (download_news cfg net date path).evs = 2)
    ∧ ((∃ s, (download_news cfg net date path).result = some (s, false)) ↔
        ∀ i, i < 3 → isFailureRes (attemptOnce cfg (net i) date path).res) := by
  have hk0 := attemptOnce_known cfg (net 0) date path hv
  have hk1 := attemptOnce_known cfg (net 1) date path hv
  have hk2 := attemptOnce_known cfg (net 2) date path hv
  have hs0 := sleepCount_attemptOnce cfg (net 0) date path
  have hs1 := sleepCount_attemptOnce cfg (net 1) date path
  have hs2 := sleepCount_attemptOnce cfg (net 2) date path
  rcases h0 : (attemptOnce cfg (net 0) date path).res with p0 | e0 | _
  rotate_right
  · exact absurd h0 hk0
  -- attempt 0 succeeds
  · have hp := attemptOnce_success_path cfg (net 0) date path p0 h0
    rw [hp] at h0
    have hdl : download_news cfg net date path =
        ⟨some (path, true), (attemptOnce cfg (net 0) date path).evs,
          (attemptOnce cfg (net 0) date path).writes, 1⟩ :=
      dlGo_succ cfg net date path 0 2 path h0
    refine ⟨?_, ?_, ?_⟩
    · intro N hN hfail hsucc
      interval_cases N
      · exact ⟨by rw [hdl], by rw [hdl], by rw [hdl]; exact hs0⟩
      · obtain ⟨e, he⟩ := hfail 0 (by omega)
        rw [h0] at he
        simp at he
      · obtain ⟨e, he⟩ := hfail 0 (by omega)
        rw [h0] at he
        simp at he
    · intro hall
      obtain ⟨e, he⟩ := hall 0 (by omega)
      rw [h0] at he
      simp at he
    · constructor
      · rintro ⟨s, hs⟩
        rw [hdl] at hs
        simp at hs
      · intro hall
        obtain ⟨e, he⟩ := hall 0 (by omega)
        rw [h0] at he
        simp at he
  -- attempt 0 fails
  · rcases h1 : (attemptOnce cfg (net 1) date path).res with p1 | e1 | _
    rotate_right
    · exact absurd h1 hk1
    -- attempt 1 succeeds
    · have hp := attemptOnce_success_path cfg (net 1) date path p1 h1
      rw [hp] at h1
      have hg1 : dlGo cfg net date path 1 2 =
          ⟨some (path, true), (attemptOnce cfg (net 1) date path).evs,
            (attemptOnce cfg (net 1) date path).writes, 1⟩ :=
        dlGo_succ cfg net date path 1 1 path h1
      have hdl : download_news cfg net date path =
          ⟨some (path, true),
            (attemptOnce cfg (net 0) date path).evs ++ [.sleepUs 1000000]
              ++ (attemptOnce cfg (net 1) date path).evs,
            (attemptOnce cfg (net 0) date path).writes
              ++ (attemptOnce cfg (net 1) date path).writes, 2⟩ := by
        show dlGo cfg net date path 0 3 = _
        rw [dlGo_fail_step cfg net date path 0 2 e0 (by omega) h0, hg1]
        rfl
      refine ⟨?_, ?_, ?_⟩
      · intro N hN hfail hsucc
        interval_cases N
        · obtain ⟨p, hp⟩ := hsucc
          rw [h0] at hp
          simp at hp
        · refine ⟨by rw [hdl], by rw [hdl], ?_⟩
          rw [hdl]
          simp only [sleepCount, List.countP_append] at hs0 hs1 ⊢
          simp [hs0, hs1, List.countP_cons, isRetrySleep]
        · obtain ⟨e, he⟩ := hfail 1 (by omega)
          rw [h1] at he
          simp at he
      · intro hall
        obtain ⟨e, he⟩ := hall 1 (by omega)
        rw [h1] at he
        simp at he
      · constructor
        · rintro ⟨s, hs⟩
          rw [hdl] at hs
          simp at hs
        · intro hall
          obtain ⟨e, he⟩ := hall 1 (by omega)
          rw [h1] at he
          simp at he
    -- attempt 1 fails
    · rcases h2 : (attemptOnce cfg (net 2) date path).res with p2 | e2 | _
      rotate_right
      · exact absurd h2 hk2
      -- attempt 2 succeeds
      · have hp := attemptOnce_success_path cfg (net 2) date path p2 h2
        rw [hp] at h2
        have hg2 : dlGo cfg net date path 2 1 =
            ⟨some (path, true), (attemptOnce cfg (net 2) date path).evs,
              (attemptOnce cfg (net 2) date path).writes, 1⟩ :=
          dlGo_succ cfg net date path 2 0 path h2
        have hg1 : dlGo cfg net date path 1 2 =
            ⟨some (path, true),
              (attemptOnce cfg (net 1) date path).evs ++ [.sleepUs 1000000]
                ++ (attemptOnce cfg (net 2) date path).evs,
              (attemptOnce cfg (net 1) date path).writes
                ++ (attemptOnce cfg (net 2) date path).writes, 2⟩ := by
          rw [dlGo_fail_step cfg net date path 1 1 e1 (by omega) h1, hg2]
          rfl
        have hdl : download_news cfg net date path =
            ⟨some (path, true),
              (attemptOnce cfg (net 0) date path).evs ++ [.sleepUs 1000000]
                ++ ((attemptOnce cfg (net 1) date path).evs ++ [.sleepUs 1000000]
                  ++ (attemptOnce cfg (net 2) date path).evs),
              (attemptOnce cfg (net 0) date path).writes
                ++ ((attemptOnce cfg (net 1) date path).writes
                  ++ (attemptOnce cfg (net 2) date path).writes), 3⟩ := by
          show dlGo cfg net date path 0 3 = _
          rw [dlGo_fail_step cfg net date path 0 2 e0 (by omega) h0, hg1]
          rfl
        refine ⟨?_, ?_, ?_⟩
        · intro N hN hfail hsucc
          interval_cases N
          · obtain ⟨p, hp⟩ := hsucc
            rw [h0] at hp
            simp at hp
          · obtain ⟨p, hp⟩ := hsucc
            rw [h1] at hp
            simp at hp
          · refine ⟨by rw [hdl], by rw [hdl], ?_⟩
            rw [hdl]
            simp only [sleepCount, List.countP_append] at hs0 hs1 hs2 ⊢
            simp [hs0, hs1, hs2, List.countP_cons, isRetrySleep]
        · intro hall
          obtain ⟨e, he⟩ := hall 2 (by omega)
          rw [h2] at he
          simp at he
        · constructor
          · rintro ⟨s, hs⟩
            rw [hdl] at hs
            simp at hs
          · intro hall
            obtain ⟨e, he⟩ := hall 2 (by omega)
            rw [h2] at he
            simp at he
      -- all three attempts fail
      · have hg2 : dlGo cfg net date path 2 1 =
            ⟨some ("接口报错，请联系管理员:" ++ e2, false),
              (attemptOnce cfg (net 2) date path).evs,
              (attemptOnce cfg (net 2) date path).writes, 1⟩ :=
          dlGo_fail_last cfg net date path 2 e2 h2
        have hg1 : dlGo cfg net date path 1 2 =
            ⟨some ("接口报错，请联系管理员:" ++ e2, false),
              (attemptOnce cfg (net 1) date path).evs ++ [.sleepUs 1000000]
                ++ (attemptOnce cfg (net 2) date path).evs,
              (attemptOnce cfg (net 1) date path).writes
                ++ (attemptOnce cfg (net 2) date path).writes, 2⟩ := by
          rw [dlGo_fail_step cfg net date path 1 1 e1 (by omega) h1, hg2]
          rfl
        have hdl : download_news cfg net date path =
            ⟨some ("接口报错，请联系管理员:" ++ e2, false),
              (attemptOnce cfg (net 0) date path).evs ++ [.sleepUs 1000000]
                ++ ((attemptOnce cfg (net 1) date path).evs ++ [.sleepUs 1000000]
                  ++ (attemptOnce cfg (net 2) date path).evs),
              (attemptOnce cfg (net 0) date path).writes
                ++ ((attemptOnce cfg (net 1) date path).writes
                  ++ (attemptOnce cfg (net 2) date path).writes), 3⟩ := by
          show dlGo cfg net date path 0 3 = _
          rw [dlGo_fail_step cfg net date path 0 2 e0 (by omega) h0, hg1]
          rfl
        refine ⟨?_, ?_, ?_⟩
        · intro N hN hfail hsucc
          interval_cases N
          · obtain ⟨p, hp⟩ := hsucc
            rw [h0] at hp
            simp at hp
          · obtain ⟨p, hp⟩ := hsucc
            rw [h1] at hp
            simp at hp
          · obtain ⟨p, hp⟩ := hsucc
            rw [h2] at hp
            simp at hp
        · intro hall
          refine ⟨⟨e2, rfl, by rw [hdl]⟩, by rw [hdl], ?_⟩
          rw [hdl]
          simp only [sleepCount, List.countP_append] at hs0 hs1 hs2 ⊢
          simp [hs0, hs1, hs2, List.countP_cons, isRetrySleep]
        · constructor
          · intro _ i hi
            interval_cases i
            · exact ⟨e0, h0⟩
            · exact ⟨e1, h1⟩
            · exact ⟨e2, h2⟩
          · intro _
            exact ⟨"接口报错，请联系管理员:" ++ e2, by rw [hdl]⟩

/-- C3 witness: direct mode, dead network on attempt 0, healthy on
attempt 1 — the download succeeds on the second attempt with two loop
iterations and one backoff sleep. -/
theorem C3_download_retry_witness :
    validType cfgDirect
    ∧ (download_news cfgDirect net01 "2025-10-12" "/tmp/p").result
        = some ("/tmp/p", true)
    ∧ (download_news cfgDirect net01 "2025-10-12" "/tmp/p").iters = 2
    ∧ sleepCount (download_news cfgDirect net01 "2025-10-12" "/tmp/p").evs = 1 := by
  have hv : validType cfgDirect := by decide
  have h := (C3_download_retry cfgDirect net01 "2025-10-12" "/tmp/p" hv).1 1
    (by omega)
    (fun i hi => by
      interval_cases i
      exact ⟨"boom", by decide⟩)
    ⟨"/tmp/p", by decide⟩
  exact ⟨hv, h.1, h.2.1, h.2.2⟩

/-- C4: when today's cache file exists, `_get_image_news` returns
`(path, True)` with no events at all (in particular zero network
GETs); when it does not, `_get_image_news` performs exactly one
`_download_news` cycle and returns that cycle's value verbatim. -/
theorem C4_get_image_news (cfg : Config) (net : Nat → Net) (date path : String) :
    (get_image_news cfg net true date path).result = some (path, true)
    ∧ (get_image_news cfg net true date path).evs = []
    ∧ fetchCount (get_image_news cfg net true date path).evs = 0
    ∧ get_image_news cfg net false date path =
        ⟨(download_news cfg net date path).result,
          (download_news cfg net date path).evs,
          (download_news cfg net date path).writes⟩ :=
  ⟨rfl, rfl, rfl, rfl⟩

/-- C5: a non-positive `save_days` makes the sweep raise `ValueError`
before touching any file (the directory is unchanged), and when this
happens inside `_daily_task`'s cycle, the exception is caught there:
the loop logs it, sleeps the 300-second recovery interval, and
continues. -/
theorem C5_retention_guard (saveDays todayOrd : Int) (files : List FileEnt)
    (hs : saveDays ≤ 0) :
    delete_expired saveDays todayOrd files = .error "保存天数不能小于0"
    ∧ pruneRun saveDays todayOrd files = files
    ∧ ∀ env : DailyEnv, env.saveDays = saveDays → env.todayOrd = todayOrd →
        env.files = files → env.cancelled = false →
        (daily_step env).2 = true
        ∧ (daily_step env).1 =
            [.sleepUs (calculate_sleep_time env.now env.hour env.minute)]
              ++ (download_news env.cfg env.net env.date env.path).evs
              ++ [.logErr "保存天数不能小于0", .sleepUs 300000000] := by
  have hde : delete_expired saveDays todayOrd files = .error "保存天数不能小于0" := by
    unfold delete_expired
    rw [if_pos hs]
  refine ⟨hde, ?_, ?_⟩
  · unfold pruneRun
    rw [hde]
  · intro env h1 h2 h3 h4
    unfold daily_step
    dsimp only
    rw [h4, h1, h2, h3, hde]
    exact ⟨rfl, rfl⟩

/-- C5 witness: `save_days = 0` in an otherwise healthy environment —
the sweep raises, the directory is untouched, and the loop survives
the cycle. -/
theorem C5_retention_guard_witness :
    (0 : Int) ≤ 0
    ∧ delete_expired 0 739536 [] = .error "保存天数不能小于0"
    ∧ pruneRun 0 739536 [] = []
    ∧ (daily_step { envW with saveDays := 0 }).2 = true := by
  have h := C5_retention_guard 0 739536 [] (by decide)
  have h2 := h.2.2 { envW with saveDays := 0 } rfl rfl rfl rfl
  exact ⟨by decide, h.1, h.2.1, h2.1⟩

/-- C9: one iteration of `_daily_task`'s `while True` body continues
iff the task was not cancelled during its sleep (nothing else stops
the loop); when the cycle's sweep raises, the iteration's trace is the
main sleep, the unconditional downloader refresh, the logged error and
the fixed 300-second recovery sleep; when the sweep succeeds, the
trace is the main sleep, the unconditional downloader refresh
(regardless of whether today's file exists), the removals, the
broadcast, and the 60-second cooldown. -/
theorem C9_daily_loop (env : DailyEnv) :
    ((daily_step env).2 = true ↔ env.cancelled = false)
    ∧ (env.cancelled = true → (daily_step env).1
        = [.sleepUs (calculate_sleep_time env.now env.hour env.minute)])
    ∧ (env.cancelled = false →
        (∀ e, delete_expired env.saveDays env.todayOrd env.files = .error e →
          (daily_step env).1 =
            [.sleepUs (calculate_sleep_time env.now env.hour env.minute)]
              ++ (download_news env.cfg env.net env.date env.path).evs
              ++ [.logErr e, .sleepUs 300000000])
        ∧ (∀ l, delete_expired env.saveDays env.todayOrd env.files = .ok l →
          (daily_step env).1 =
            [.sleepUs (calculate_sleep_time env.now env.hour env.minute)]
              ++ (download_news env.cfg env.net env.date env.path).evs
              ++ (env.files.filter
                  (fun f => ! fileKept env.todayOrd env.saveDays f)).map
                  (fun f => Ev.remove f.name)
              ++ send_daily_news_to_groups env.cfg env.net env.fileExists
                  env.date env.path env.sendFails env.groups
              ++ [.sleepUs 60000000])) := by
  cases hc : env.cancelled with
  | false =>
    refine ⟨?_, ?_, ?_⟩
    · constructor
      · intro _
        rfl
      · intro _
        unfold daily_step
        dsimp only
        rw [hc]
        rcases hde : delete_expired env.saveDays env.todayOrd env.files with e | l <;>
          rfl
    · intro h
      exact absurd h (by simp)
    · intro _
      constructor
      · intro e he
        unfold daily_step
        dsimp only
        rw [hc, he]
        rfl
      · intro l hl
        unfold daily_step
        dsimp only
        rw [hc, hl]
        rfl
  | true =>
    refine ⟨?_, ?_, ?_⟩
    · constructor
      · intro h
        unfold daily_step at h
        dsimp only at h
        rw [hc] at h
        simp at h
      · intro h
        exact absurd h (by simp)
    · intro _
      unfold daily_step
      dsimp only
      rw [hc]
      rfl
    · intro h
      exact absurd h (by simp)

/-- C9 witness: the concrete environment `envW` (not cancelled, empty
cache, 7-day retention) — the iteration continues and its trace is the
full cycle with the 60-second cooldown. -/
theorem C9_daily_loop_witness :
    envW.cancelled = false
    ∧ (daily_step envW).2 = true
    ∧ delete_expired envW.saveDays envW.todayOrd envW.files = .ok []
    ∧ (daily_step envW).1 =
        [.sleepUs (calculate_sleep_time envW.now envW.hour envW.minute)]
          ++ (download_news envW.cfg envW.net envW.date envW.path).evs
          ++ (envW.files.filter
              (fun f => ! fileKept envW.todayOrd envW.saveDays f)).map
              (fun f => Ev.remove f.name)
          ++ send_daily_news_to_groups envW.cfg envW.net envW.fileExists
              envW.date envW.path envW.sendFails envW.groups
          ++ [.sleepUs 60000000] := by
  have h := C9_daily_loop envW
  exact ⟨rfl, h.1.mpr rfl, rfl, (h.2.2 rfl).2 [] rfl⟩

lemma isPaceSleep_retry : isPaceSleep (Ev.sleepUs 1000000) = false := rfl

lemma isPaceSleep_yes : isPaceSleep (Ev.sleepUs 2000000) = true := rfl

lemma isPaceSleep_logErr (s : String) : isPaceSleep (Ev.logErr s) = false := rfl

lemma isPaceSleep_send (t : String) : isPaceSleep (Ev.send t) = false := rfl

lemma paceCount_dlGo (cfg : Config) (net : Nat → Net) (date path : String) :
    ∀ r a, paceCount (dlGo cfg net date path a r).evs = 0 := by
  intro r
  induction r with
  | zero => intro a; rfl
  | succ r ih =>
    intro a
    rcases h : (attemptOnce cfg (net a) date path).res with p | e | _
    · rw [dlGo_succ cfg net date path a r p h]
      exact paceCount_attemptOnce cfg (net a) date path
    · rcases Nat.eq_zero_or_pos r with hr | hr
      · subst hr
        rw [dlGo_fail_last cfg net date path a e h]
        exact paceCount_attemptOnce cfg (net a) date path
      · rw [dlGo_fail_step cfg net date path a r e (by omega) h]
        have h1 := paceCount_attemptOnce cfg (net a) date path
        have h2 := ih (a + 1)
        simp only [paceCount, List.countP_append, List.countP_cons,
          List.countP_nil, isPaceSleep_retry, Bool.false_eq_true, if_false,
          if_true] at h1 h2 ⊢
        omega
    · rw [dlGo_skip cfg net date path a r h]
      have h1 := paceCount_attemptOnce cfg (net a) date path
      have h2 := ih (a + 1)
      simp only [paceCount, List.countP_append] at h1 h2 ⊢
      omega

lemma paceCount_get (cfg : Config) (net : Nat → Net) (fe : Bool)
    (date path : String) :
    paceCount (get_image_news cfg net fe date path).evs = 0 := by
  cases fe
  · exact paceCount_dlGo cfg net date path 3 0
  · rfl

lemma paceCount_sendTarget (cfg : Config) (net : Nat → Net) (fe : Bool)
    (date path : String) (sendFails : String → Option String) (t : String) :
    paceCount (sendTarget cfg net fe date path sendFails t) = 1 := by
  unfold sendTarget
  dsimp only
  have h0 := paceCount_get cfg net fe date path
  rcases tupleUnpack (get_image_news cfg net fe date path).result with e | pr
  · simp only [paceCount, List.countP_append, List.countP_cons, List.countP_nil,
      isPaceSleep_yes, isPaceSleep_logErr, Bool.false_eq_true, if_false,
      if_true] at h0 ⊢
    omega
  · rcases sendFails t with _ | e2
    · simp only [paceCount, List.countP_append, List.countP_cons, List.countP_nil,
        isPaceSleep_yes, isPaceSleep_send, Bool.false_eq_true, if_false,
        if_true] at h0 ⊢
      omega
    · simp only [paceCount, List.countP_append, List.countP_cons, List.countP_nil,
        isPaceSleep_yes, isPaceSleep_send, isPaceSleep_logErr, Bool.false_eq_true,
        if_false, if_true] at h0 ⊢
      omega

/-- C8: the broadcaster processes the configured targets in order —
the trace over `t :: ts` is `t`'s segment followed by the remaining
targets' trace, whatever happened on `t`; every target's segment ends
with the 2-second pacing sleep (failure or success); each target
contributes exactly one pacing sleep; and a raising send is caught and
logged after the send attempt, not propagated. -/
theorem C8_broadcast (cfg : Config) (net : Nat → Net) (fileExists : Bool)
    (date path : String) (sendFails : String → Option String) :
    (∀ t ts, send_daily_news_to_groups cfg net fileExists date path sendFails (t :: ts)
        = sendTarget cfg net fileExists date path sendFails t
          ++ send_daily_news_to_groups cfg net fileExists date path sendFails ts)
    ∧ (∀ t, ∃ pre, sendTarget cfg net fileExists date path sendFails t
        = pre ++ [.sleepUs 2000000])
    ∧ (∀ ts, paceCount
        (send_daily_news_to_groups cfg net fileExists date path sendFails ts)
        = ts.length)
    ∧ (∀ t e pr, sendFails t = some e →
        tupleUnpack (get_image_news cfg net fileExists date path).result = .ok pr →
        Ev.send t ∈ sendTarget cfg net fileExists date path sendFails t
        ∧ Ev.logErr ("推送新闻失败: " ++ (if e = "" then "未知错误" else e))
            ∈ sendTarget cfg net fileExists date path sendFails t) := by
  refine ⟨?_, ?_, ?_, ?_⟩
  · intro t ts
    simp [send_daily_news_to_groups]
  · intro t
    unfold sendTarget
    dsimp only
    rcases tupleUnpack (get_image_news cfg net fileExists date path).result with e | pr
    · exact ⟨(get_image_news cfg net fileExists date path).evs
        ++ [.logErr ("推送新闻失败: " ++ (if e = "" then "未知错误" else e))], by simp⟩
    · rcases sendFails t with _ | e2
      · exact ⟨(get_image_news cfg net fileExists date path).evs ++ [.send t], by simp⟩
      · exact ⟨(get_image_news cfg net fileExists date path).evs
          ++ [.send t, .logErr ("推送新闻失败: " ++ (if e2 = "" then "未知错误" else e2))],
          by simp⟩
  · intro ts
    induction ts with
    | nil => rfl
    | cons t ts ih =>
      have h1 := paceCount_sendTarget cfg net fileExists date path sendFails t
      simp only [send_daily_news_to_groups, List.flatMap_cons, paceCount,
        List.countP_append, List.length_cons] at h1 ih ⊢
      omega
  · intro t e pr hsf hup
    unfold sendTarget
    dsimp only
    rw [hup, hsf]
    constructor <;> simp

/-- C8 witness: one target `"g1"` whose send raises with an empty
message, file already cached — the send is attempted and the failure
is logged with the `"未知错误"` placeholder. -/
theorem C8_broadcast_witness :
    (fun t => if t = "g1" then some "" else none : String → Option String) "g1"
        = some ""
    ∧ tupleUnpack (get_image_news cfgDirect (fun _ => netOk) true
        "2025-10-12" "/tmp/p").result = .ok ("/tmp/p", true)
    ∧ Ev.send "g1" ∈ sendTarget cfgDirect (fun _ => netOk) true "2025-10-12"
        "/tmp/p" (fun t => if t = "g1" then some "" else none) "g1"
    ∧ Ev.logErr ("推送新闻失败: " ++ (if "" = "" then "未知错误" else ""))
        ∈ sendTarget cfgDirect (fun _ => netOk) true "2025-10-12" "/tmp/p"
            (fun t => if t = "g1" then some "" else none) "g1" := by
  have h := (C8_broadcast cfgDirect (fun _ => netOk) true "2025-10-12" "/tmp/p"
      (fun t => if t = "g1" then some "" else none)).2.2.2 "g1" ""
      ("/tmp/p", true) (by decide) rfl
  exact ⟨by decide, rfl, h.1, h.2⟩

/-- C6 counterexample: in indirect mode with the image-URL field name
configured as `"picture"`, a response that carries the URL under
`"picture"` (and not under `"imageUrl"`) makes the attempt fail with
the missing-`imageUrl` error — the downloader reads the literal field
`"imageUrl"`, not the configured field name. -/
theorem C6_field_names_counterexample :
    cfgPicture.img_key = "picture"
    ∧ jget [("code", .num 200), ("picture", .str "http://x/y.jpg")] "picture"
        = some (.str "http://x/y.jpg")
    ∧ (attemptOnce cfgPicture netPicture "2025-10-12" "/tmp/p").res
        = .failure "响应中未找到imageUrl字段" := by
  exact ⟨rfl, rfl, by decide⟩

lemma dlGo_keys (t a u k1 k2 k1' k2' : String) (net : Nat → Net)
    (date path : String) :
    ∀ r aa, dlGo ⟨t, a, u, k1, k2⟩ net date path aa r
      = dlGo ⟨t, a, u, k1', k2'⟩ net date path aa r := by
  intro r
  induction r with
  | zero => intro aa; rfl
  | succ r ih =>
    intro aa
    have hA : attemptOnce ⟨t, a, u, k1, k2⟩ (net aa) date path
        = attemptOnce ⟨t, a, u, k1', k2'⟩ (net aa) date path := rfl
    conv_lhs => rw [dlGo]
    conv_rhs => rw [dlGo]
    dsimp only
    rw [hA, ih (aa + 1)]

/-- C6 amended: the field names the indirect-mode downloader reads are
the fixed literals `"code"`, `"imageUrl"` and `"msg"`; the configured
`img_key`/`date_key` strings are stored but never used — the whole
download is invariant under changing them, and a response whose only
URL field is the literal `"imageUrl"` succeeds even when `img_key` is
configured as `"picture"`. -/
theorem C6_field_names_amended (t a u k1 k2 k1' k2' : String)
    (net : Nat → Net) (date path : String) :
    download_news ⟨t, a, u, k1, k2⟩ net date path
      = download_news ⟨t, a, u, k1', k2'⟩ net date path
    ∧ (attemptOnce ⟨"indirect", "http://a", "", "picture", "ts"⟩ netImageUrl
        date path).res = .success path
    ∧ (attemptOnce cfgPicture netPicture date path).res
        = .failure "响应中未找到imageUrl字段" :=
  ⟨dlGo_keys t a u k1 k2 k1' k2' net date path 3 0, rfl, rfl⟩

/-- C7 counterexample: in indirect mode the first GET goes to the
configured endpoint string verbatim — the requested URL is identical
for two different values of today's date, so the endpoint request is
not parameterized with the date (only the hard-coded vikiboss URL is). -/
theorem C7_indirect_counterexample :
    cfgImageUrl.api = "http://a"
    ∧ (attemptOnce cfgImageUrl netImageUrl "2025-10-12" "/tmp/p").evs
        = [.fetch "http://a", .fetch "http://x/y.jpg"]
    ∧ (attemptOnce cfgImageUrl netImageUrl "1999-12-31" "/tmp/p").evs
        = (attemptOnce cfgImageUrl netImageUrl "2025-10-12" "/tmp/p").evs := by
  exact ⟨rfl, by decide, by decide⟩

/-- C7 amended: an indirect-mode attempt is two-step with the first
GET addressed to the configured endpoint as-is (no date parameter):
a network error or non-200 endpoint status fails the attempt; a 200
response whose `code` field is not 200 fails with its `msg` field
(default `"未知错误"`); an absent or falsy `imageUrl` fails with the
distinct missing-field error; otherwise a second GET is issued to the
extracted URL, succeeding with the body written to `path` iff that GET
returns HTTP 200. -/
theorem C7_indirect_two_step (cfg : Config) (net : Net) (date path : String)
    (hty : cfg.news_type = "indirect") :
    ((attemptOnce cfg net date path).evs.head? = some (.fetch cfg.api))
    ∧ (∀ e, net cfg.api = .error e →
        (attemptOnce cfg net date path).res = .failure e)
    ∧ (∀ r, net cfg.api = .ok r → r.status ≠ 200 →
        (attemptOnce cfg net date path).res
          = .failure ("API请求失败: HTTP " ++ toString r.status))
    ∧ (∀ r j, net cfg.api = .ok r → r.status = 200 → r.json = .ok j →
        jget j "code" ≠ some (.num 200) →
        (attemptOnce cfg net date path).res
          = .failure ("API返回错误: " ++
              (match jget j "msg" with
               | some v => jvalAsStr v
               | none => "未知错误")))
    ∧ (∀ r j, net cfg.api = .ok r → r.status = 200 → r.json = .ok j →
        jget j "code" = some (.num 200) → isFalsy (jget j "imageUrl") = true →
        (attemptOnce cfg net date path).res = .failure "响应中未找到imageUrl字段")
    ∧ (∀ r j iu ir, net cfg.api = .ok r → r.status = 200 → r.json = .ok j →
        jget j "code" = some (.num 200) → jget j "imageUrl" = some (.str iu) →
        iu ≠ "" → net iu = .ok ir →
        (attemptOnce cfg net date path).evs = [.fetch cfg.api, .fetch iu]
        ∧ (ir.status = 200 →
            attemptOnce cfg net date path
              = ⟨.success path, [.fetch cfg.api, .fetch iu], [(path, ir.body)]⟩)
        ∧ (ir.status ≠ 200 →
            (attemptOnce cfg net date path).res
              = .failure ("图片下载失败: HTTP " ++ toString ir.status))) := by
  refine ⟨?_, ?_, ?_, ?_, ?_, ?_⟩
  · unfold attemptOnce
    rw [hty]
    simp only [String.reduceEq, if_false, if_true]
    try dsimp only
    repeat' split
    all_goals rfl
  · intro e he
    unfold attemptOnce
    rw [hty]
    simp only [String.reduceEq, if_false, if_true]
    try dsimp only
    rw [he]
  · intro r hr hs
    unfold attemptOnce
    rw [hty]
    simp only [String.reduceEq, if_false, if_true]
    try dsimp only
    rw [hr]
    try dsimp only
    rw [if_neg hs]
  · intro r j hr hs hj hcode
    unfold attemptOnce
    rw [hty]
    simp only [String.reduceEq, if_false, if_true]
    try dsimp only
    rw [hr]
    try dsimp only
    rw [if_pos hs, hj]
    try dsimp only
    rw [if_neg hcode]
  · intro r j hr hs hj hcode hfalsy
    unfold attemptOnce
    rw [hty]
    simp only [String.reduceEq, if_false, if_true]
    try dsimp only
    rw [hr]
    try dsimp only
    rw [if_pos hs, hj]
    try dsimp only
    rw [if_pos hcode, hfalsy]
    rfl
  · intro r j iu ir hr hs hj hcode hiu hne hir
    have hfalsy : isFalsy (jget j "imageUrl") = false := by
      rw [hiu]
      simp [isFalsy, hne]
    unfold attemptOnce
    rw [hty]
    simp only [String.reduceEq, if_false, if_true]
    try dsimp only
    rw [hr]
    try dsimp only
    rw [if_pos hs, hj]
    try dsimp only
    rw [if_pos hcode, hfalsy]
    simp only [Bool.false_eq_true, if_false]
    rw [hiu]
    dsimp only
    rw [hir]
    refine ⟨?_, ?_, ?_⟩
    · dsimp only
      split <;> rfl
    · intro h200
      dsimp only
      rw [if_pos h200]
    · intro hn200
      dsimp only
      rw [if_neg hn200]

/-- C7 witness: the spec scenarios — `{code: 500, msg: "bad"}` fails
the attempt immediately with message `"bad"`, and a 200 response with
`imageUrl` triggers the second GET to that URL, whose 200 body is
written to the cache path. -/
theorem C7_indirect_two_step_witness :
    cfgImageUrl.news_type = "indirect"
    ∧ (attemptOnce cfgImageUrl netCode500 "2025-10-12" "/tmp/p").res
        = .failure ("API返回错误: " ++ "bad")
    ∧ attemptOnce cfgImageUrl netImageUrl "2025-10-12" "/tmp/p"
        = ⟨.success "/tmp/p", [.fetch "http://a", .fetch "http://x/y.jpg"],
            [("/tmp/p", "IMGBYTES")]⟩ := by
  have h1 := (C7_indirect_two_step cfgImageUrl netCode500 "2025-10-12" "/tmp/p"
      rfl).2.2.2.1 ⟨200, "", .ok [("code", .num 500), ("msg", .str "bad")]⟩
      [("code", .num 500), ("msg", .str "bad")] rfl rfl rfl (by decide)
  have h2 := ((C7_indirect_two_step cfgImageUrl netImageUrl "2025-10-12" "/tmp/p"
      rfl).2.2.2.2.2
      ⟨200, "", .ok [("code", .num 200), ("imageUrl", .str "http://x/y.jpg")]⟩
      [("code", .num 200), ("imageUrl", .str "http://x/y.jpg")]
      "http://x/y.jpg" ⟨200, "IMGBYTES", .ok []⟩
      rfl rfl rfl (by decide) rfl (by decide) rfl).2.1 rfl
  exact ⟨rfl, h1, h2⟩

/-- C10 counterexample: with an unrecognised `news_type` (`"text"`)
and no cached file, `_get_image_news` itself returns the `None`
produced by `_download_news` as an ordinary value — it performs no
tuple unpacking and does not fail; the `TypeError` surfaces only in
its callers. -/
theorem C10_unknown_type_counterexample :
    cfgText.news_type = "text"
    ∧ ¬ validType cfgText
    ∧ get_image_news cfgText (fun _ => netDown) false "2025-10-12" "/tmp/p"
        = ⟨none, [], []⟩ := by
  exact ⟨rfl, by decide, rfl⟩

/-- C10 amended: for any `news_type` outside the three recognised
variants, every loop iteration's body is skipped without raising (no
GET, no sleep, no write), `_download_news` falls through and returns
`None` instead of a pair; `_get_image_news` forwards that `None`
unchanged, and the callers that unpack the value into a tuple (the
command handlers and the per-target broadcast step) then fail with a
`TypeError`. -/
theorem C10_unknown_type (cfg : Config) (net : Nat → Net) (date path : String)
    (h : ¬ validType cfg) :
    download_news cfg net date path = ⟨none, [], [], 3⟩
    ∧ (get_image_news cfg net false date path).result = none
    ∧ (∃ e, tupleUnpack (get_image_news cfg net false date path).result
        = .error e) := by
  have ha : ∀ i, attemptOnce cfg (net i) date path = ⟨.skipped, [], []⟩ :=
    fun i => attemptOnce_unknown cfg (net i) date path h
  have hsk : ∀ i, (attemptOnce cfg (net i) date path).res = .skipped :=
    fun i => by rw [ha i]
  have hdl : download_news cfg net date path = ⟨none, [], [], 3⟩ := by
    show dlGo cfg net date path 0 3 = _
    rw [dlGo_skip cfg net date path 0 2 (hsk 0),
      dlGo_skip cfg net date path 1 1 (hsk 1),
      dlGo_skip cfg net date path 2 0 (hsk 2)]
    rw [ha 0, ha 1, ha 2]
    rfl
  have hres : (get_image_news cfg net false date path).result = none := by
    show (download_news cfg net date path).result = none
    rw [hdl]
  refine ⟨hdl, hres, ?_⟩
  refine ⟨"TypeError: cannot unpack non-iterable NoneType object", ?_⟩
  rw [hres]
  rfl

/-- C10 witness: the concrete `"text"` configuration. -/
theorem C10_unknown_type_witness :
    ¬ validType cfgText
    ∧ download_news cfgText (fun _ => netDown) "2025-10-12" "/tmp/p"
        = ⟨none, [], [], 3⟩
    ∧ (get_image_news cfgText (fun _ => netDown) false "2025-10-12" "/tmp/p").result
        = none := by
  have h := C10_unknown_type cfgText (fun _ => netDown) "2025-10-12" "/tmp/p"
    (by decide)
  exact ⟨by decide, h.1, h.2.1⟩

end DailyNews